import Mathlib

/-!
Verification of the credit-card recommendation RAG pipeline.

The development shallowly embeds the request flow of the repository:
the data model (`CreditCard`, `CardEmbedding`, `Recommendation` response),
the Similarity Retriever (`cosineSimilarity`, `findSimilarCards`), and the
Recommendation Generator (`generateRecommendations` with its JSON
parse-and-validate step `parseStep`).

External collaborators (the embedding model, the chat-completion model and
the JavaScript `JSON.parse` builtin) are modelled as oracle inputs
(`PipelineOracle`): the pipeline is a pure function of the outcomes those
services would produce.  The pipeline also returns the list of external
calls it performed (`ExtCall`), so that "no external call is attempted"
properties can be stated as facts about the returned trace.

Floating-point vectors are idealised as real-number vectors (`List ℝ`),
the standard idealisation for numeric similarity claims.
-/

/-- Additional descriptive attribute of a card: the source allows arbitrary
extra fields whose values are strings or numbers. -/
inductive AttrValue where
  | str (s : String)
  | num (q : ℚ)

/-- Credit-card record: identifier, display name, application URL, plus an
open-ended attribute mapping (from the source `CreditCard` interface). -/
structure CreditCard where
  id : String
  credit_card_name : String
  url_application : String
  attrs : List (String × AttrValue)

/-- An embedding-store entry: card identifier, its vector and the owning
card (from the source `CardEmbedding` interface). -/
structure CardEmbedding where
  cardId : String
  embedding : List ℝ
  card : CreditCard

/-- The persisted embeddings store (from the source `EmbeddingsStore`
interface). -/
structure EmbeddingsStore where
  cards : List CreditCard
  embeddings : List CardEmbedding
  generatedAt : String

/-- JSON value, the shape of data `JSON.parse` can produce. -/
inductive Json where
  | null
  | bool (b : Bool)
  | num (q : ℚ)
  | str (s : String)
  | arr (elems : List Json)
  | obj (fields : List (String × Json))

/-- The response shape of the Generator (source `RecommendationsResponse`):
the validated recommendation objects exactly as the model produced them,
plus the optional raw model text. -/
structure RecommendationsResponse where
  recommendations : List Json
  rawModelAnswer : Option String

/-- Errors a request can end with, following the spec taxonomy. -/
inductive GenError where
  | configurationError (msg : String)
  | externalServiceError (msg : String)
  deriving DecidableEq

/-- External round-trips the pipeline can perform. -/
inductive ExtCall where
  | embed
  | chat
  deriving DecidableEq, BEq

/-- Dot product of two vectors, `zipWith` style as a linear scan would
compute it. -/
def dotProduct (a b : List ℝ) : ℝ :=
  (List.zipWith (· * ·) a b).sum

/-- Modelled from the spec: Euclidean magnitude of a vector, used by the
cosine-similarity computation of the Similarity Retriever (the embeddings
module is not present under src/). -/
noncomputable def magnitude (v : List ℝ) : ℝ :=
  Real.sqrt (dotProduct v v)

/-- Modelled from the spec: cosine similarity, "dot product divided by the
product of magnitudes" (spec section 4.2; the embeddings module is not
present under src/). -/
noncomputable def cosineSimilarity (a b : List ℝ) : ℝ :=
  dotProduct a b / (magnitude a * magnitude b)

/-- Similarity score of a stored entry against the query vector. -/
noncomputable def simScore (q : List ℝ) (ce : CardEmbedding) : ℝ :=
  cosineSimilarity q ce.embedding

/-- Ranking relation of the retriever on index-tagged entries: higher
cosine score first, ties broken by original store position (the spec's
"stable on original store order"). -/
def simRel (q : List ℝ) (a b : Nat × CardEmbedding) : Prop :=
  simScore q b.2 < simScore q a.2 ∨
    (simScore q a.2 = simScore q b.2 ∧ a.1 ≤ b.1)

noncomputable instance simRelDecidable (q : List ℝ) : DecidableRel (simRel q) :=
  fun a b => by unfold simRel; infer_instance

instance simRelTotal (q : List ℝ) : IsTotal (Nat × CardEmbedding) (simRel q) where
  total a b := by
    rcases lt_trichotomy (simScore q a.2) (simScore q b.2) with h | h | h
    · exact Or.inr (Or.inl h)
    · rcases Nat.le_total a.1 b.1 with hn | hn
      · exact Or.inl (Or.inr ⟨h, hn⟩)
      · exact Or.inr (Or.inr ⟨h.symm, hn⟩)
    · exact Or.inl (Or.inl h)

instance simRelTrans (q : List ℝ) : IsTrans (Nat × CardEmbedding) (simRel q) where
  trans a b c hab hbc := by
    rcases hab with hab | ⟨hab, hab2⟩
    · rcases hbc with hbc | ⟨hbc, _⟩
      · exact Or.inl (hbc.trans hab)
      · exact Or.inl (hbc ▸ hab)
    · rcases hbc with hbc | ⟨hbc, hbc2⟩
      · exact Or.inl (hab ▸ hbc)
      · exact Or.inr ⟨hab.trans hbc, hab2.trans hbc2⟩

/-- Modelled from the spec: the Similarity Retriever (`findSimilarCards`
in the embeddings module, not present under src/).  Per spec section 4.2
it scores every stored vector against the query by cosine similarity,
sorts by descending score with ties broken stably on original store
order, and returns the top `topN` entries. -/
noncomputable def findSimilarCards (q : List ℝ) (topN : Nat)
    (store : List CardEmbedding) : List CardEmbedding :=
  ((store.enum.insertionSort (simRel q)).take topN).map Prod.snd

/-- JavaScript property access `v.name` on a parsed JSON value: it throws
a TypeError on `null` (modelled as `Except.error`), yields the field for
objects, and `undefined` (modelled as `none`) for every other value. -/
def getField : Json → String → Except Unit (Option Json)
  | Json.null, _ => Except.error ()
  | Json.obj fields, name => Except.ok (List.lookup name fields)
  | _, _ => Except.ok none

/-- JavaScript truthiness of a JSON value: `null`, `false`, `0` and the
empty string are falsy; arrays and objects are always truthy. -/
def truthy : Json → Bool
  | Json.null => false
  | Json.bool b => b
  | Json.num q => decide (q ≠ 0)
  | Json.str s => !s.isEmpty
  | Json.arr _ => true
  | Json.obj _ => true

/-- JavaScript strict equality between a known string and a JSON value,
as in the source comparison of a card name with a parsed field. -/
def jsStrictEqStr (s : String) : Json → Bool
  | Json.str t => s == t
  | _ => false

/-- The source filter callback on one parsed recommendation object:
`rec.credit_card_name && rec.apply_url && rec.reason &&
similarCards.some(card => card.card.credit_card_name === rec.credit_card_name)`.
Property access on a `null` element throws, which the model propagates as
`Except.error`. -/
def recPredicate (similar : List CardEmbedding) (rec : Json) : Except Unit Bool :=
  match getField rec "credit_card_name" with
  | Except.error e => Except.error e
  | Except.ok none => Except.ok false
  | Except.ok (some nameVal) =>
    if !truthy nameVal then Except.ok false
    else
      match getField rec "apply_url" with
      | Except.error e => Except.error e
      | Except.ok none => Except.ok false
      | Except.ok (some urlVal) =>
        if !truthy urlVal then Except.ok false
        else
          match getField rec "reason" with
          | Except.error e => Except.error e
          | Except.ok none => Except.ok false
          | Except.ok (some reasonVal) =>
            if !truthy reasonVal then Except.ok false
            else
              Except.ok (similar.any
                (fun ce => jsStrictEqStr ce.card.credit_card_name nameVal))

/-- `Array.prototype.filter` with a predicate that may throw: elements are
tested left to right and a thrown error aborts the whole filter. -/
def filterE (p : Json → Except Unit Bool) : List Json → Except Unit (List Json)
  | [] => Except.ok []
  | x :: xs =>
    match p x with
    | Except.error e => Except.error e
    | Except.ok b =>
      match filterE p xs with
      | Except.error e => Except.error e
      | Except.ok rest => Except.ok (if b then x :: rest else rest)

/-- The source extraction `parsed.cards || []` followed by the demand that
the value support `.filter`: an absent or falsy `cards` field becomes the
empty list, a truthy non-array value makes `.filter` throw a TypeError. -/
def extractCards (parsed : Json) : Except Unit (List Json) :=
  match getField parsed "cards" with
  | Except.error e => Except.error e
  | Except.ok none => Except.ok []
  | Except.ok (some v) =>
    if truthy v then
      match v with
      | Json.arr elems => Except.ok elems
      | _ => Except.error ()
    else Except.ok []

/-- Step 5 of the source `generateRecommendations`: parse the raw model
text (the outcome of the `JSON.parse` builtin is `parseResult`), extract
and validate the recommendation objects, and fall back to zero
recommendations with the unmodified raw text when parsing or any later
property access throws. -/
def parseStep (similar : List CardEmbedding) (rawAnswer : String)
    (parseResult : Option Json) : RecommendationsResponse :=
  match parseResult with
  | none => ⟨[], some rawAnswer⟩
  | some parsed =>
    match
      (match extractCards parsed with
       | Except.error e => Except.error e
       | Except.ok elems => filterE (recPredicate similar) elems) with
    | Except.error _ => ⟨[], some rawAnswer⟩
    | Except.ok valid => ⟨valid, some rawAnswer⟩

/-- Environment configuration visible to the pipeline: the API credential
(`OPENAI_API_KEY`), absent or present. -/
structure Env where
  apiKey : Option String

/-- Outcomes the external collaborators would produce if called: the
embedding service (a query vector or a failure), the chat-completion
service (the optional message content or a failure), and the `JSON.parse`
builtin as a function from raw text to an optional JSON value. -/
structure PipelineOracle where
  embedOutcome : Except String (List ℝ)
  chatOutcome : Except String (Option String)
  jsonParse : String → Option Json

/-- The error message of the source `getOpenAIClient` credential check. -/
def keyMissingMsg : String :=
  "OPENAI_API_KEY is not set. Please check your .env.local file."

/-- Modelled from the spec: the Query Embedder (`embedQuery` in the
embeddings module, not present under src/).  Per spec sections 4.1 and 7,
a missing credential is a ConfigurationError surfaced before any external
call is attempted, and a failed embedding call is an ExternalServiceError
that propagates immediately.  The returned trace records whether the
external embedding call was made. -/
def embedQuery (env : Env) (outcome : Except String (List ℝ)) :
    Except GenError (List ℝ) × List ExtCall :=
  match env.apiKey with
  | none => (Except.error (GenError.configurationError keyMissingMsg), [])
  | some _ =>
    match outcome with
    | Except.error e => (Except.error (GenError.externalServiceError e), [ExtCall.embed])
    | Except.ok v => (Except.ok v, [ExtCall.embed])

/-- Demo card A of the spec's fixed three-card store. -/
def cardA : CreditCard := ⟨"A", "A", "http://a", []⟩

/-- Demo card B of the spec's fixed three-card store. -/
def cardB : CreditCard := ⟨"B", "B", "http://b", []⟩

/-- Demo card C of the spec's fixed three-card store. -/
def cardC : CreditCard := ⟨"C", "C", "http://c", []⟩

/-- Demo embedding entry for card A with vector `[1, 0]`. -/
noncomputable def ceA : CardEmbedding := ⟨"A", [1, 0], cardA⟩

/-- Demo embedding entry for card B with vector `[0, 1]`. -/
noncomputable def ceB : CardEmbedding := ⟨"B", [0, 1], cardB⟩

/-- Demo embedding entry for card C with vector `[0.7, 0.7]`. -/
noncomputable def ceC : CardEmbedding := ⟨"C", [0.7, 0.7], cardC⟩

/-- The spec's fixed three-card demo store. -/
noncomputable def demoStore : List CardEmbedding := [ceA, ceB, ceC]

/-- A single-card store entry used to exercise the pipeline on concrete
inputs. -/
noncomputable def ceW : CardEmbedding := ⟨"W", [1], ⟨"W", "Card W", "http://w", []⟩⟩

/-- A well-formed parsed recommendation object naming `Card W`. -/
def recW : Json :=
  Json.obj [("credit_card_name", Json.str "Card W"),
    ("apply_url", Json.str "http://w"), ("reason", Json.str "good fit")]

/-- A parsed model output whose `cards` array holds `recW`. -/
def parsedW : Json := Json.obj [("cards", Json.arr [recW])]

/-- The source `generateRecommendations`: embed the query, retrieve the
top `topN` similar cards, return early when no candidate matches, check
the credential (`getOpenAIClient`), call the chat model, and parse and
validate its output.  Errors of the external steps propagate unchanged
(the source `catch` block rethrows).  The second component is the trace
of external calls performed. -/
noncomputable def generateRecommendations (env : Env) (store : List CardEmbedding)
    (orc : PipelineOracle) (topN : Nat) :
    Except GenError RecommendationsResponse × List ExtCall :=
  match embedQuery env orc.embedOutcome with
  | (Except.error e, calls) => (Except.error e, calls)
  | (Except.ok qvec, calls) =>
    let similar := findSimilarCards qvec topN store
    if similar.isEmpty then
      (Except.ok ⟨[], some "No matching cards found."⟩, calls)
    else
      match env.apiKey with
      | none => (Except.error (GenError.configurationError keyMissingMsg), calls)
      | some _ =>
        match orc.chatOutcome with
        | Except.error e =>
          (Except.error (GenError.externalServiceError e), calls ++ [ExtCall.chat])
        | Except.ok content =>
          let rawAnswer := content.getD ""
          (Except.ok (parseStep similar rawAnswer (orc.jsonParse rawAnswer)),
            calls ++ [ExtCall.chat])

/-- Oracle used to exercise the malformed-JSON path on concrete inputs. -/
def orcMalformed : PipelineOracle :=
  ⟨Except.ok [1], Except.ok (some "not json at all"), fun _ => none⟩

/-- Oracle used to exercise the chat-failure path on concrete inputs. -/
def orcChatFail : PipelineOracle :=
  ⟨Except.ok [1], Except.error "network down", fun _ => none⟩

/-- Oracle whose embedding call would succeed with the vector `[1]`. -/
def orcPlain : PipelineOracle :=
  ⟨Except.ok [1], Except.ok none, fun _ => none⟩

/-- A strict-equality hit means the JSON value is exactly that string. -/
theorem jsStrictEqStr_true {s : String} {v : Json}
    (h : jsStrictEqStr s v = true) : v = Json.str s := by
  cases v <;> simp [jsStrictEqStr] at h
  exact congrArg Json.str h.symm

/-- Elements surviving the throwing filter were in the input and passed
the predicate. -/
theorem mem_of_filterE_ok {p : Json → Except Unit Bool} :
    ∀ {l res : List Json}, filterE p l = Except.ok res →
      ∀ x ∈ res, x ∈ l ∧ p x = Except.ok true := by
  intro l
  induction l with
  | nil =>
    intro res h x hx
    simp only [filterE, Except.ok.injEq] at h
    subst h
    simp at hx
  | cons a as ih =>
    intro res h x hx
    unfold filterE at h
    cases hp : p a with
    | error e => simp [hp] at h
    | ok b =>
      simp only [hp] at h
      cases hrec : filterE p as with
      | error e => simp [hrec] at h
      | ok rest =>
        simp only [hrec, Except.ok.injEq] at h
        subst h
        cases b with
        | false =>
          simp only [if_neg Bool.false_ne_true] at hx
          rcases ih hrec x hx with ⟨hmem, hpx⟩
          exact ⟨List.mem_cons_of_mem _ hmem, hpx⟩
        | true =>
          simp only [if_pos rfl] at hx
          rcases List.mem_cons.mp hx with rfl | hx
          · exact ⟨List.mem_cons_self _ _, hp⟩
          · rcases ih hrec x hx with ⟨hmem, hpx⟩
            exact ⟨List.mem_cons_of_mem _ hmem, hpx⟩

/-- Unpacking a successful run of the source filter callback: all three
fields are present and truthy, and the name field is exactly the name of
some candidate card. -/
theorem recPredicate_ok_true {similar : List CardEmbedding} {r : Json}
    (h : recPredicate similar r = Except.ok true) :
    (∃ v, getField r "credit_card_name" = Except.ok (some v) ∧ truthy v = true) ∧
    (∃ v, getField r "apply_url" = Except.ok (some v) ∧ truthy v = true) ∧
    (∃ v, getField r "reason" = Except.ok (some v) ∧ truthy v = true) ∧
    (∃ ce ∈ similar, getField r "credit_card_name" =
      Except.ok (some (Json.str ce.card.credit_card_name))) := by
  unfold recPredicate at h
  cases hn : getField r "credit_card_name" with
  | error e => simp [hn] at h
  | ok o =>
    simp only [hn] at h
    cases o with
    | none => simp at h
    | some nameVal =>
      cases htn : truthy nameVal with
      | false => simp [htn] at h
      | true =>
        simp only [htn, Bool.not_true, Bool.false_eq_true, if_false] at h
        cases hu : getField r "apply_url" with
        | error e => simp [hu] at h
        | ok ou =>
          simp only [hu] at h
          cases ou with
          | none => simp at h
          | some urlVal =>
            cases htu : truthy urlVal with
            | false => simp [htu] at h
            | true =>
              simp only [htu, Bool.not_true, Bool.false_eq_true, if_false] at h
              cases hre : getField r "reason" with
              | error e => simp [hre] at h
              | ok ore =>
                simp only [hre] at h
                cases ore with
                | none => simp at h
                | some reasonVal =>
                  cases htr : truthy reasonVal with
                  | false => simp [htr] at h
                  | true =>
                    simp only [htr, Bool.not_true, Bool.false_eq_true,
                      if_false, Except.ok.injEq] at h
                    rcases List.any_eq_true.mp h with ⟨ce, hce, heq⟩
                    have hv := jsStrictEqStr_true heq
                    subst hv
                    refine ⟨⟨Json.str ce.card.credit_card_name, rfl, htn⟩,
                      ⟨urlVal, rfl, htu⟩, ⟨reasonVal, rfl, htr⟩, ⟨ce, hce, rfl⟩⟩

/-- Every recommendation surviving the parse step passed the source
filter callback. -/
theorem parseStep_mem {similar : List CardEmbedding} {raw : String}
    {pr : Option Json} {r : Json}
    (hr : r ∈ (parseStep similar raw pr).recommendations) :
    recPredicate similar r = Except.ok true := by
  unfold parseStep at hr
  cases pr with
  | none => simp at hr
  | some parsed =>
    cases he : extractCards parsed with
    | error e => simp [he] at hr
    | ok elems =>
      simp only [he] at hr
      cases hf : filterE (recPredicate similar) elems with
      | error e => simp [hf] at hr
      | ok valid =>
        simp only [hf] at hr
        exact (mem_of_filterE_ok hf r hr).2

/-- C1: every recommendation returned by the Recommendation Generator's
parse-and-validate step carries a `credit_card_name` that is exactly the
name of some card in the candidate set passed into that call, for every
model output (raw text and parse outcome are universally quantified, so
adversarial or fabricated names are covered); recommendations referencing
unknown cards never survive into the result. -/
theorem generator_names_from_candidates
    (similar : List CardEmbedding) (raw : String) (pr : Option Json)
    (r : Json) (hr : r ∈ (parseStep similar raw pr).recommendations) :
    ∃ ce ∈ similar, getField r "credit_card_name" =
      Except.ok (some (Json.str ce.card.credit_card_name)) :=
  (recPredicate_ok_true (parseStep_mem hr)).2.2.2

/-- Witness for C1 at a concrete input: the well-formed object naming
`Card W` survives validation against the one-card candidate set and its
name field is the candidate's name. -/
theorem generator_names_from_candidates_witness :
    recW ∈ (parseStep [ceW] "raw" (some parsedW)).recommendations ∧
    ∃ ce ∈ [ceW], getField recW "credit_card_name" =
      Except.ok (some (Json.str ce.card.credit_card_name)) := by
  have hlist : (parseStep [ceW] "raw" (some parsedW)).recommendations = [recW] := rfl
  have hmem : recW ∈ (parseStep [ceW] "raw" (some parsedW)).recommendations := by
    rw [hlist]; exact List.mem_singleton.mpr rfl
  exact ⟨hmem, generator_names_from_candidates [ceW] "raw" (some parsedW) recW hmem⟩

/-- C5: on a successfully parsed model output, the Generator extracts the
candidate list (an absent `cards` field means the empty list) and keeps
only recommendations whose name, URL and reason fields are all present
(and truthy); any recommendation surviving into the result has all three
fields. -/
theorem generator_extracts_and_filters_fields
    (similar : List CardEmbedding) (raw : String) (parsed : Json) :
    (getField parsed "cards" = Except.ok none →
      (parseStep similar raw (some parsed)).recommendations = []) ∧
    (∀ r ∈ (parseStep similar raw (some parsed)).recommendations,
      (∃ v, getField r "credit_card_name" = Except.ok (some v) ∧ truthy v = true) ∧
      (∃ v, getField r "apply_url" = Except.ok (some v) ∧ truthy v = true) ∧
      (∃ v, getField r "reason" = Except.ok (some v) ∧ truthy v = true)) := by
  constructor
  · intro habsent
    have hext : extractCards parsed = Except.ok [] := by
      unfold extractCards
      rw [habsent]
    simp [parseStep, hext, filterE]
  · intro r hr
    have h := recPredicate_ok_true (parseStep_mem hr)
    exact ⟨h.1, h.2.1, h.2.2.1⟩

/-- Witness for C5 at concrete inputs: an output without a `cards` field
yields zero recommendations, and the surviving object of `parsedW` has
all three fields present and truthy. -/
theorem generator_extracts_and_filters_fields_witness :
    (parseStep [] "x" (some (Json.obj []))).recommendations = [] ∧
    ((∃ v, getField recW "credit_card_name" = Except.ok (some v) ∧ truthy v = true) ∧
     (∃ v, getField recW "apply_url" = Except.ok (some v) ∧ truthy v = true) ∧
     (∃ v, getField recW "reason" = Except.ok (some v) ∧ truthy v = true)) := by
  constructor
  · exact (generator_extracts_and_filters_fields [] "x" (Json.obj [])).1 rfl
  · have hmem : recW ∈ (parseStep [ceW] "raw" (some parsedW)).recommendations := by
      have hlist : (parseStep [ceW] "raw" (some parsedW)).recommendations = [recW] := rfl
      rw [hlist]; exact List.mem_singleton.mpr rfl
    exact (generator_extracts_and_filters_fields [ceW] "raw" parsedW).2 recW hmem

/-- C3: when the API credential is absent the request fails with the
configuration error of `getOpenAIClient`, and the trace of external calls
is empty: neither the embedding model nor the chat model is called. -/
theorem missing_key_fails_before_any_call
    (env : Env) (store : List CardEmbedding) (orc : PipelineOracle) (topN : Nat)
    (h : env.apiKey = none) :
    generateRecommendations env store orc topN =
      (Except.error (GenError.configurationError keyMissingMsg), []) := by
  unfold generateRecommendations embedQuery
  rw [h]

/-- Witness for C3 at a concrete input: an environment with no key. -/
theorem missing_key_fails_before_any_call_witness :
    generateRecommendations ⟨none⟩ [] orcPlain 12 =
      (Except.error (GenError.configurationError keyMissingMsg), []) :=
  missing_key_fails_before_any_call ⟨none⟩ [] orcPlain 12 rfl

/-- C10: when the retriever returns no candidate cards, the request
succeeds with zero recommendations and the fixed raw answer
"No matching cards found.", and the chat model is never invoked (the
call trace holds only the embedding call). -/
theorem empty_retrieval_skips_chat
    (k : String) (store : List CardEmbedding) (orc : PipelineOracle)
    (topN : Nat) (q : List ℝ)
    (hemb : orc.embedOutcome = Except.ok q)
    (hempty : findSimilarCards q topN store = []) :
    generateRecommendations ⟨some k⟩ store orc topN =
      (Except.ok ⟨[], some "No matching cards found."⟩, [ExtCall.embed]) ∧
    (generateRecommendations ⟨some k⟩ store orc topN).2.count ExtCall.chat = 0 := by
  have h1 : generateRecommendations ⟨some k⟩ store orc topN =
      (Except.ok ⟨[], some "No matching cards found."⟩, [ExtCall.embed]) := by
    unfold generateRecommendations embedQuery
    rw [hemb]
    simp [hempty]
  exact ⟨h1, by rw [h1]; rfl⟩

/-- Witness for C10 at a concrete input: the empty store retrieves
nothing, so the pipeline stops after the embedding call. -/
theorem empty_retrieval_skips_chat_witness :
    generateRecommendations ⟨some "sk"⟩ [] orcPlain 12 =
      (Except.ok ⟨[], some "No matching cards found."⟩, [ExtCall.embed]) ∧
    (generateRecommendations ⟨some "sk"⟩ [] orcPlain 12).2.count ExtCall.chat = 0 := by
  have hempty : findSimilarCards [1] 12 [] = [] := by
    simp [findSimilarCards, List.insertionSort]
  exact empty_retrieval_skips_chat "sk" [] orcPlain 12 [1] rfl hempty

/-- C2: when the chat model's raw text fails to parse as JSON, the
request still succeeds: zero recommendations, and the raw-answer field is
populated with the unmodified model text. -/
theorem malformed_json_recovers
    (k : String) (store : List CardEmbedding) (orc : PipelineOracle)
    (topN : Nat) (q : List ℝ) (content : Option String)
    (hemb : orc.embedOutcome = Except.ok q)
    (hsim : (findSimilarCards q topN store).isEmpty = false)
    (hchat : orc.chatOutcome = Except.ok content)
    (hparse : orc.jsonParse (content.getD "") = none) :
    generateRecommendations ⟨some k⟩ store orc topN =
      (Except.ok ⟨[], some (content.getD "")⟩, [ExtCall.embed, ExtCall.chat]) := by
  unfold generateRecommendations embedQuery
  rw [hemb]
  simp [hsim, hchat, hparse, parseStep]

/-- Witness for C2 at a concrete input: a one-card store, a chat answer
that is not JSON, and a parse oracle that rejects it. -/
theorem malformed_json_recovers_witness :
    (findSimilarCards [1] 1 [ceW]).isEmpty = false ∧
    generateRecommendations ⟨some "sk"⟩ [ceW] orcMalformed 1 =
      (Except.ok ⟨[], some "not json at all"⟩, [ExtCall.embed, ExtCall.chat]) :=
  ⟨rfl, malformed_json_recovers "sk" [ceW] orcMalformed 1 [1]
    (some "not json at all") rfl rfl rfl rfl⟩

/-- C7: when the chat-completion call itself fails, the whole request
fails with an ExternalServiceError carrying exactly the service's
diagnostic message (the credential `k` is universally quantified and does
not appear in the error), the error propagates unchanged through the
source rethrow, and the chat call is attempted exactly once — never
retried. -/
theorem chat_failure_propagates
    (k : String) (store : List CardEmbedding) (orc : PipelineOracle)
    (topN : Nat) (q : List ℝ) (e : String)
    (hemb : orc.embedOutcome = Except.ok q)
    (hsim : (findSimilarCards q topN store).isEmpty = false)
    (hchat : orc.chatOutcome = Except.error e) :
    generateRecommendations ⟨some k⟩ store orc topN =
      (Except.error (GenError.externalServiceError e), [ExtCall.embed, ExtCall.chat]) ∧
    (generateRecommendations ⟨some k⟩ store orc topN).2.count ExtCall.chat = 1 := by
  have h1 : generateRecommendations ⟨some k⟩ store orc topN =
      (Except.error (GenError.externalServiceError e), [ExtCall.embed, ExtCall.chat]) := by
    unfold generateRecommendations embedQuery
    rw [hemb]
    simp [hsim, hchat]
  exact ⟨h1, by rw [h1]; rfl⟩

/-- Witness for C7 at a concrete input: a one-card store and a chat
service whose call fails with "network down". -/
theorem chat_failure_propagates_witness :
    (findSimilarCards [1] 1 [ceW]).isEmpty = false ∧
    (generateRecommendations ⟨some "sk"⟩ [ceW] orcChatFail 1 =
      (Except.error (GenError.externalServiceError "network down"),
        [ExtCall.embed, ExtCall.chat]) ∧
    (generateRecommendations ⟨some "sk"⟩ [ceW] orcChatFail 1).2.count ExtCall.chat = 1) :=
  ⟨rfl, chat_failure_propagates "sk" [ceW] orcChatFail 1 [1] "network down" rfl rfl rfl⟩

/-- The dot product of a vector with itself is its sum of squares. -/
theorem dotProduct_self_eq_sum_squares (v : List ℝ) :
    dotProduct v v = (v.map (fun x => x * x)).sum := by
  induction v with
  | nil => rfl
  | cons x xs ih =>
    simp only [dotProduct, List.zipWith_cons_cons, List.map_cons, List.sum_cons]
    rw [← ih]
    rfl

/-- A vector with a nonzero entry has positive self dot product. -/
theorem dotProduct_self_pos {v : List ℝ} (h : ∃ x ∈ v, x ≠ 0) :
    0 < dotProduct v v := by
  rw [dotProduct_self_eq_sum_squares]
  rcases h with ⟨x, hx, hne⟩
  induction v with
  | nil => simp at hx
  | cons y ys ih =>
    rcases List.mem_cons.mp hx with rfl | hx2
    · have hrest : 0 ≤ (ys.map (fun x => x * x)).sum :=
        List.sum_nonneg (by
          intro a ha
          rcases List.mem_map.mp ha with ⟨b, _, rfl⟩
          exact mul_self_nonneg b)
      have hhead : 0 < x * x := mul_self_pos.mpr hne
      simp only [List.map_cons, List.sum_cons]
      linarith
    · have hrest := ih hx2
      have hhead : 0 ≤ y * y := mul_self_nonneg y
      simp only [List.map_cons, List.sum_cons]
      linarith

/-- C9: the cosine similarity of any vector having a nonzero entry with
itself equals 1 (exactly, in the real-number idealisation of the
floating-point computation, hence within any tolerance). -/
theorem cosine_similarity_self_eq_one (v : List ℝ) (h : ∃ x ∈ v, x ≠ 0) :
    cosineSimilarity v v = 1 := by
  have hpos := dotProduct_self_pos h
  unfold cosineSimilarity magnitude
  rw [Real.mul_self_sqrt hpos.le]
  exact div_self (ne_of_gt hpos)

/-- Witness for C9 at a concrete input: the one-entry vector `[3]`. -/
theorem cosine_similarity_self_eq_one_witness :
    (∃ x ∈ [(3 : ℝ)], x ≠ 0) ∧ cosineSimilarity [3] [3] = 1 := by
  have h : ∃ x ∈ [(3 : ℝ)], x ≠ 0 := ⟨3, by simp, by norm_num⟩
  exact ⟨h, cosine_similarity_self_eq_one [3] h⟩

/-- The retriever's output is sorted by non-increasing cosine score. -/
theorem findSimilarCards_sorted (q : List ℝ) (topN : Nat)
    (store : List CardEmbedding) :
    (findSimilarCards q topN store).Pairwise
      (fun a b => cosineSimilarity q b.embedding ≤ cosineSimilarity q a.embedding) := by
  have hs : (store.enum.insertionSort (simRel q)).Pairwise (simRel q) :=
    List.sorted_insertionSort (simRel q) store.enum
  have ht : ((store.enum.insertionSort (simRel q)).take topN).Pairwise (simRel q) :=
    List.Pairwise.sublist (List.take_sublist _ _) hs
  refine List.pairwise_map.mpr (ht.imp ?_)
  intro a b hab
  rcases hab with hlt | ⟨heq, _⟩
  · exact le_of_lt hlt
  · exact le_of_eq heq.symm

/-- C4: for every query vector and store the Similarity Retriever returns
at most `topN` results sorted by non-increasing cosine-similarity score,
and on the empty store it returns the empty list. -/
theorem retriever_topk_sorted (q : List ℝ) (topN : Nat)
    (store : List CardEmbedding) :
    (findSimilarCards q topN store).length ≤ topN ∧
    (findSimilarCards q topN store).Pairwise
      (fun a b => cosineSimilarity q b.embedding ≤ cosineSimilarity q a.embedding) ∧
    findSimilarCards q topN [] = [] := by
  refine ⟨?_, findSimilarCards_sorted q topN store, ?_⟩
  · unfold findSimilarCards
    rw [List.length_map, List.length_take]
    exact min_le_left _ _
  · simp [findSimilarCards, List.insertionSort]

/-- The enumerated store is sorted by strictly increasing index. -/
theorem enum_pairwise_fst_lt {α : Type} (l : List α) :
    l.enum.Pairwise (fun a b => a.1 < b.1) := by
  have h2 : (l.enum.map Prod.fst).Pairwise (· < ·) := by
    rw [List.enum_map_fst]
    exact List.pairwise_lt_range _
  exact List.pairwise_map.mp h2

/-- C6: when `topN` is at least the store size, the Similarity Retriever
returns every store entry (the result is a permutation of the store),
still sorted by non-increasing cosine score, and ties are broken stably:
for every score value, the entries attaining it appear in exactly their
original store order. -/
theorem retriever_full_sorted_stable (q : List ℝ) (topN : Nat)
    (store : List CardEmbedding) (h : store.length ≤ topN) :
    (findSimilarCards q topN store).Perm store ∧
    (findSimilarCards q topN store).Pairwise
      (fun a b => cosineSimilarity q b.embedding ≤ cosineSimilarity q a.embedding) ∧
    ∀ s : ℝ, (findSimilarCards q topN store).filter
        (fun ce => decide (cosineSimilarity q ce.embedding = s)) =
      store.filter (fun ce => decide (cosineSimilarity q ce.embedding = s)) := by
  have hperm0 : (store.enum.insertionSort (simRel q)).Perm store.enum :=
    List.perm_insertionSort (simRel q) store.enum
  have hlen : (store.enum.insertionSort (simRel q)).length = store.length := by
    rw [hperm0.length_eq, List.enum_length]
  have htake : (store.enum.insertionSort (simRel q)).take topN =
      store.enum.insertionSort (simRel q) :=
    List.take_of_length_le (by rw [hlen]; exact h)
  have hfind : findSimilarCards q topN store =
      (store.enum.insertionSort (simRel q)).map Prod.snd := by
    unfold findSimilarCards
    rw [htake]
  refine ⟨?_, findSimilarCards_sorted q topN store, ?_⟩
  · rw [hfind]
    have := hperm0.map Prod.snd
    rwa [List.enum_map_snd] at this
  · intro s
    rw [hfind]
    set p : CardEmbedding → Bool :=
      fun ce => decide (cosineSimilarity q ce.embedding = s) with hp
    rw [List.filter_map]
    conv_rhs => rw [← List.enum_map_snd store, List.filter_map]
    congr 1
    haveI : IsAntisymm (Nat × CardEmbedding) (fun a b => a.1 < b.1) :=
      ⟨fun a b hab hba => absurd hba (Nat.lt_asymm hab)⟩
    have hL : (store.enum.insertionSort (simRel q)).Pairwise (simRel q) :=
      List.sorted_insertionSort (simRel q) store.enum
    have hLf : ((store.enum.insertionSort (simRel q)).filter (p ∘ Prod.snd)).Pairwise
        (simRel q) := hL.filter _
    have hnd0 : (store.enum.map Prod.fst).Nodup := by
      rw [List.enum_map_fst]
      exact List.nodup_range _
    have hndL : ((store.enum.insertionSort (simRel q)).map Prod.fst).Nodup :=
      (hperm0.map Prod.fst).nodup_iff.mpr hnd0
    have hndF : (((store.enum.insertionSort (simRel q)).filter (p ∘ Prod.snd)).map
        Prod.fst).Nodup :=
      List.Nodup.sublist (List.Sublist.map Prod.fst (List.filter_sublist _)) hndL
    have hne : ((store.enum.insertionSort (simRel q)).filter (p ∘ Prod.snd)).Pairwise
        (fun a b => a.1 ≠ b.1) := List.pairwise_map.mp hndF
    have hle : ((store.enum.insertionSort (simRel q)).filter (p ∘ Prod.snd)).Pairwise
        (fun a b => a.1 ≤ b.1) := by
      refine hLf.imp_of_mem ?_
      intro a b ha hb hab
      have hsa : cosineSimilarity q a.2.embedding = s := by
        have := List.of_mem_filter ha
        simpa [hp] using this
      have hsb : cosineSimilarity q b.2.embedding = s := by
        have := List.of_mem_filter hb
        simpa [hp] using this
      rcases hab with hlt | ⟨_, hle2⟩
      · exfalso
        have : simScore q b.2 < simScore q a.2 := hlt
        simp only [simScore] at this
        rw [hsa, hsb] at this
        exact lt_irrefl s this
      · exact hle2
    have hsortL : ((store.enum.insertionSort (simRel q)).filter (p ∘ Prod.snd)).Pairwise
        (fun a b => a.1 < b.1) :=
      (hle.and hne).imp (fun hab => lt_of_le_of_ne hab.1 hab.2)
    have hsortR : (store.enum.filter (p ∘ Prod.snd)).Pairwise
        (fun a b => a.1 < b.1) :=
      (enum_pairwise_fst_lt store).filter _
    exact List.eq_of_perm_of_sorted (hperm0.filter (p ∘ Prod.snd)) hsortL hsortR

/-- Witness for C6 at a concrete input: the one-card store with `topN = 1`
and score value 1. -/
theorem retriever_full_sorted_stable_witness :
    [ceW].length ≤ 1 ∧
    ((findSimilarCards [1] 1 [ceW]).Perm [ceW] ∧
     (findSimilarCards [1] 1 [ceW]).Pairwise
       (fun a b => cosineSimilarity [1] b.embedding ≤ cosineSimilarity [1] a.embedding) ∧
     (findSimilarCards [1] 1 [ceW]).filter
         (fun ce => decide (cosineSimilarity [1] ce.embedding = 1)) =
       [ceW].filter (fun ce => decide (cosineSimilarity [1] ce.embedding = 1))) := by
  have h : [ceW].length ≤ 1 := by simp
  have hthm := retriever_full_sorted_stable [1] 1 [ceW] h
  exact ⟨h, hthm.1, hthm.2.1, hthm.2.2 1⟩

/-- C8: on the spec's fixed store of three cards with embeddings
`[1,0]`, `[0,1]`, `[0.7,0.7]` and query `[1,0]`, top-2 retrieval returns
`[A, C]` in that order; A's similarity is exactly 1, C's is within 0.01
of 0.7, and B's is exactly 0. -/
theorem demo_top2_retrieval :
    findSimilarCards [1, 0] 2 demoStore = [ceA, ceC] ∧
    cosineSimilarity [1, 0] ceA.embedding = 1 ∧
    |cosineSimilarity [1, 0] ceC.embedding - 0.7| < 1 / 100 ∧
    cosineSimilarity [1, 0] ceB.embedding = 0 := by
  have hdq : dotProduct [1, 0] [1, 0] = 1 := by
    norm_num [dotProduct]
  have hmagq : magnitude [1, 0] = 1 := by
    unfold magnitude
    rw [hdq]
    exact Real.sqrt_one
  have hA : cosineSimilarity [1, 0] ceA.embedding = 1 := by
    show cosineSimilarity [1, 0] [1, 0] = 1
    unfold cosineSimilarity
    rw [hdq, hmagq]
    norm_num
  have hB : cosineSimilarity [1, 0] ceB.embedding = 0 := by
    show cosineSimilarity [1, 0] [0, 1] = 0
    unfold cosineSimilarity
    have hd : dotProduct [1, 0] [0, 1] = 0 := by
      norm_num [dotProduct]
    rw [hd]
    exact zero_div _
  have hs98 : Real.sqrt 0.98 * Real.sqrt 0.98 = 0.98 :=
    Real.mul_self_sqrt (by norm_num)
  have hsp : 0 < Real.sqrt 0.98 := Real.sqrt_pos.mpr (by norm_num)
  have hlo : (0.9899 : ℝ) < Real.sqrt 0.98 := by nlinarith [hs98, hsp]
  have hhi : Real.sqrt 0.98 < 0.99 := by nlinarith [hs98, hsp]
  have hCeq : cosineSimilarity [1, 0] ceC.embedding = 0.7 / Real.sqrt 0.98 := by
    show cosineSimilarity [1, 0] [0.7, 0.7] = _
    unfold cosineSimilarity magnitude
    have hd1 : dotProduct [1, 0] [0.7, 0.7] = 0.7 := by
      norm_num [dotProduct]
    have hd2 : dotProduct [(0.7 : ℝ), 0.7] [0.7, 0.7] = 0.98 := by
      norm_num [dotProduct]
    rw [hd1, hdq, hd2, Real.sqrt_one, one_mul]
  have hClo : (0.7 : ℝ) < cosineSimilarity [1, 0] ceC.embedding := by
    rw [hCeq]
    rw [lt_div_iff₀ hsp]
    nlinarith [hhi]
  have hChi : cosineSimilarity [1, 0] ceC.embedding < 0.71 := by
    rw [hCeq]
    rw [div_lt_iff₀ hsp]
    nlinarith [hlo]
  have h1 : ¬ simRel [1, 0] (1, ceB) (2, ceC) := by
    intro hcon
    rcases hcon with hlt | ⟨heq, _⟩
    · have hlt2 : cosineSimilarity [1, 0] ceC.embedding <
          cosineSimilarity [1, 0] ceB.embedding := hlt
      rw [hB] at hlt2
      linarith
    · have heq2 : cosineSimilarity [1, 0] ceB.embedding =
          cosineSimilarity [1, 0] ceC.embedding := heq
      rw [hB] at heq2
      linarith
  have h2 : simRel [1, 0] (0, ceA) (2, ceC) := by
    refine Or.inl ?_
    show cosineSimilarity [1, 0] ceC.embedding < cosineSimilarity [1, 0] ceA.embedding
    rw [hA]
    linarith
  have henum : demoStore.enum = [(0, ceA), (1, ceB), (2, ceC)] := rfl
  have hsort : ([(0, ceA), (1, ceB), (2, ceC)] :
      List (Nat × CardEmbedding)).insertionSort (simRel [1, 0]) =
      [(0, ceA), (2, ceC), (1, ceB)] := by
    simp only [List.insertionSort, List.orderedInsert]
    rw [if_neg h1]
    simp only [List.orderedInsert]
    rw [if_pos h2]
  have hmain : findSimilarCards [1, 0] 2 demoStore = [ceA, ceC] := by
    unfold findSimilarCards
    rw [henum, hsort]
    rfl
  refine ⟨hmain, hA, ?_, hB⟩
  rw [abs_lt]
  constructor
  · linarith
  · linarith
